import Mathlib

/-!
Shallow embedding of the nexus-pipeline processing core
(app/orchestrator/workers.py, app/orchestrator/pipeline.py,
app/queue/client.py) and proofs about the pipeline claims.

Database rows are Lean structures, the database is explicit state,
handlers are pure functions from state and collaborator behaviour to
(state, boolean outcome, list of observable events).  A collaborator
call that raises a Python exception is modelled by the Except error
case; the handlers' catch-all except blocks are part of the embedded
definitions, so each handler is a total function.
-/

namespace Nexus

set_option maxRecDepth 16384

/-- Python truthiness of an optional string: None and the empty string are falsy. -/
def strTruthy : Option String → Bool
  | none => false
  | some s => !s.isEmpty

/-- Python `a or b` on two optional strings: the first operand if truthy, else the second. -/
def pyOr (a b : Option String) : Option String :=
  if strTruthy a then a else b

/-- Length of an optional string (0 for None; Python would raise on len(None),
but every use below is guarded by a truthiness check first). -/
def optLen : Option String → Nat
  | none => 0
  | some s => s.length

/-- Row of the articles table (app/database/models.py plus the columns added by
scripts/migrate_database.py: processing_status default 'pending', full_content,
extraction_method). -/
structure Article where
  id : Nat
  title : String
  url : String
  content : Option String
  video_id : Option String
  scraped_at : Int
  processing_status : String
  full_content : Option String
  extraction_method : Option String
deriving Repr, DecidableEq

/-- Row of the processing_queue table (the per-item ProcessingRecord). -/
structure QueueEntry where
  article_id : Nat
  status : String
  current_stage : Option String
  error_message : Option String
  retry_count : Nat
deriving Repr, DecidableEq

/-- Row of the article_summaries table. -/
structure SummaryRow where
  article_id : Nat
  model : String
  summary : String
  key_points : List String
deriving Repr, DecidableEq

/-- Row of the article_embeddings table (vector entries abstracted to Int). -/
structure EmbeddingRow where
  article_id : Nat
  vector : List Int
  model : String
deriving Repr, DecidableEq

/-- The persistent database state shared by the workers and the orchestrator. -/
structure Db where
  articles : List Article
  processing_queue : List QueueEntry
  summaries : List SummaryRow
  embeddings : List EmbeddingRow
deriving Repr, DecidableEq

/-- First row matching a predicate is updated in place, the rest untouched
(the SQLAlchemy pattern: query .first() then mutate then commit). -/
def updateFirst (p : α → Bool) (f : α → α) : List α → List α
  | [] => []
  | x :: xs => if p x then f x :: xs else x :: updateFirst p f xs

/-- Query Article by primary key, .first(). -/
def findArticle (db : Db) (article_id : Nat) : Option Article :=
  db.articles.find? (fun a => a.id == article_id)

/-- Query ProcessingQueue by article_id, .first(). -/
def findQueueEntry (db : Db) (article_id : Nat) : Option QueueEntry :=
  db.processing_queue.find? (fun q => q.article_id == article_id)

/-- Query ArticleSummary by article_id, .first(). -/
def findSummary (db : Db) (article_id : Nat) : Option SummaryRow :=
  db.summaries.find? (fun s => s.article_id == article_id)

/-- Query ArticleEmbedding by article_id, .first(). -/
def findEmbedding (db : Db) (article_id : Nat) : Option EmbeddingRow :=
  db.embeddings.find? (fun e => e.article_id == article_id)

/-- Mutate the first article row with the given id and commit. -/
def setArticle (db : Db) (article_id : Nat) (f : Article → Article) : Db :=
  { db with articles := updateFirst (fun a => a.id == article_id) f db.articles }

/-- Insert a summary row and commit. -/
def addSummary (db : Db) (s : SummaryRow) : Db :=
  { db with summaries := db.summaries ++ [s] }

/-- Insert an embedding row and commit. -/
def addEmbedding (db : Db) (e : EmbeddingRow) : Db :=
  { db with embeddings := db.embeddings ++ [e] }

/-- Modelled from the spec: the ProcessingQueue SQLAlchemy model lives in
app/database/models_extended.py, which is not in the tree (only its callers
are).  Per spec section 3 a fresh ProcessingRecord has a nullable
error_message (so null until a failure writes one) and an integer
retry_count that starts at 0 and only rises on failure; the creating call
in workers.py passes only article_id, status and current_stage, so the
remaining columns take these defaults. -/
def newQueueEntry (article_id : Nat) (status : String) (stage : Option String) : QueueEntry :=
  { article_id := article_id, status := status, current_stage := stage,
    error_message := none, retry_count := 0 }

/-- The update applied to an existing ProcessingQueue row by
update_processing_status (workers.py lines 44-51): status always, stage only
if truthy, and on a truthy error also the error_message and a retry_count
increment. -/
def applyStatusUpdate (status : String) (stage error : Option String)
    (q : QueueEntry) : QueueEntry :=
  let q1 := { q with status := status }
  let q2 := if strTruthy stage then { q1 with current_stage := stage } else q1
  if strTruthy error then
    { q2 with error_message := error, retry_count := q2.retry_count + 1 }
  else q2

/-- update_processing_status (workers.py lines 30-58): create the record if
absent (the error argument is not part of the creating constructor call),
otherwise update it in place. -/
def update_processing_status (db : Db) (article_id : Nat) (status : String)
    (stage : Option String) (error : Option String) : Db :=
  match db.processing_queue.find? (fun q => q.article_id == article_id) with
  | none =>
      { db with processing_queue :=
          db.processing_queue ++ [newQueueEntry article_id status stage] }
  | some _ =>
      let upd := updateFirst (fun q => q.article_id == article_id)
        (applyStatusUpdate status stage error) db.processing_queue
      { db with processing_queue := upd }

/-- Status column of the item's ProcessingRecord, if a record exists. -/
def statusOf (db : Db) (article_id : Nat) : Option String :=
  (findQueueEntry db article_id).map (fun q => q.status)

/-- Stage column of the item's ProcessingRecord, flattened. -/
def stageOf (db : Db) (article_id : Nat) : Option String :=
  (findQueueEntry db article_id).bind (fun q => q.current_stage)

/-- error_message column of the item's ProcessingRecord, flattened. -/
def errorOf (db : Db) (article_id : Nat) : Option String :=
  (findQueueEntry db article_id).bind (fun q => q.error_message)

/-- retry_count column of the item's ProcessingRecord, if a record exists. -/
def retryOf (db : Db) (article_id : Nat) : Option Nat :=
  (findQueueEntry db article_id).map (fun q => q.retry_count)

/-- Observable side effects of a handler or orchestrator run, in order. -/
inductive Event where
  | enqueueExtraction (article_id : Nat)
  | enqueueSummarization (article_id : Nat)
  | enqueueEmbedding (article_id : Nat)
  | extractorInvoked (article_id : Nat)
  | summarizerInvoked (article_id : Nat)
  | embedderInvoked (article_id : Nat)
  | cacheDelete (keys : List String)
deriving Repr, DecidableEq

/-- Result dictionary of ContentExtractor: a content string plus an optional
method tag (result.get reads it with a default). -/
structure ExtractResult where
  content : String
  method : Option String
deriving Repr, DecidableEq

/-- Result dictionary of LLMSummarizer.summarize: by construction it always
carries summary, key_points and model keys. -/
structure SummaryResult where
  summary : String
  key_points : List String
  model : String
deriving Repr, DecidableEq

/-- Behaviour of the external collaborators consumed by the stage handlers.
An Except.error value models the call raising a Python exception whose
str() is the carried message; Except.ok carries the returned value
(None modelled as Option.none). -/
structure Collaborators where
  extract_video_transcript : String → Except String (Option ExtractResult)
  extract_article_content : String → Except String (Option ExtractResult)
  summarize : String → String → Except String (Option SummaryResult)
  embed : String → Except String (Option (List Int))
  embed_model_name : String

/-- extract_content (workers.py lines 61-135): the Extraction stage handler.
Returns the updated database, the boolean outcome, and the events in order. -/
def extract_content (c : Collaborators) (db : Db) (article_id : Nat) :
    Db × Bool × List Event :=
  let db1 := update_processing_status db article_id "extracting" (some "extraction") none
  match findArticle db1 article_id with
  | none =>
      (update_processing_status db1 article_id "failed" none (some "Article not found"),
       false, [])
  | some article =>
      if strTruthy article.full_content && decide (optLen article.full_content > 100) then
        let db2 := update_processing_status db1 article_id "pending" (some "summarization") none
        (db2, true, [Event.enqueueSummarization article_id])
      else
        let call : Except String (Option ExtractResult × String) :=
          if strTruthy article.video_id then
            match c.extract_video_transcript (article.video_id.getD "") with
            | Except.error m => Except.error m
            | Except.ok r => Except.ok (r, "youtube_transcript")
          else
            match c.extract_article_content article.url with
            | Except.error m => Except.error m
            | Except.ok r =>
                Except.ok (r, match r with
                  | some er => er.method.getD "unknown"
                  | none => "failed")
        match call with
        | Except.error m =>
            (update_processing_status db1 article_id "failed" none (some m),
             false, [Event.extractorInvoked article_id])
        | Except.ok (result, method) =>
            match result with
            | some er =>
                if !er.content.isEmpty then
                  let db2 := setArticle db1 article_id (fun a =>
                    { a with full_content := some er.content,
                             extraction_method := some method,
                             processing_status := "extracting" })
                  let db3 := update_processing_status db2 article_id "pending"
                      (some "summarization") none
                  (db3, true,
                   [Event.extractorInvoked article_id,
                    Event.enqueueSummarization article_id])
                else
                  (update_processing_status db1 article_id "failed" none
                     (some "Content extraction failed"),
                   false, [Event.extractorInvoked article_id])
            | none =>
                (update_processing_status db1 article_id "failed" none
                   (some "Content extraction failed"),
                 false, [Event.extractorInvoked article_id])

/-- generate_summary (workers.py lines 138-219): the Summarization stage handler. -/
def generate_summary (c : Collaborators) (db : Db) (article_id : Nat) :
    Db × Bool × List Event :=
  let db1 := update_processing_status db article_id "summarizing" (some "summarization") none
  match findArticle db1 article_id with
  | none =>
      (update_processing_status db1 article_id "failed" none (some "Article not found"),
       false, [])
  | some article =>
      match findSummary db1 article_id with
      | some _ =>
          let db2 := update_processing_status db1 article_id "pending" (some "embedding") none
          (db2, true, [Event.enqueueEmbedding article_id])
      | none =>
          let content := pyOr article.full_content article.content
          if !strTruthy content || decide (optLen content < 50) then
            (update_processing_status db1 article_id "failed" none
               (some "Insufficient content"),
             false, [])
          else
            match c.summarize (content.getD "") article.title with
            | Except.error m =>
                (update_processing_status db1 article_id "failed" none (some m),
                 false, [Event.summarizerInvoked article_id])
            | Except.ok none =>
                (update_processing_status db1 article_id "failed" none
                   (some "Summarization failed"),
                 false, [Event.summarizerInvoked article_id])
            | Except.ok (some r) =>
                let db2 := addSummary db1
                  { article_id := article_id, model := r.model,
                    summary := r.summary, key_points := r.key_points }
                let db3 := setArticle db2 article_id (fun a =>
                  { a with processing_status := "summarizing" })
                let db4 := update_processing_status db3 article_id "pending"
                    (some "embedding") none
                (db4, true,
                 [Event.summarizerInvoked article_id,
                  Event.enqueueEmbedding article_id])

/-- generate_embedding (workers.py lines 222-303): the Embedding stage handler. -/
def generate_embedding (c : Collaborators) (db : Db) (article_id : Nat) :
    Db × Bool × List Event :=
  let db1 := update_processing_status db article_id "embedding" (some "embedding") none
  match findArticle db1 article_id with
  | none =>
      (update_processing_status db1 article_id "failed" none (some "Article not found"),
       false, [])
  | some article =>
      match findEmbedding db1 article_id with
      | some _ =>
          let db2 := update_processing_status db1 article_id "completed" none none
          (db2, true, [])
      | none =>
          let text_to_embed : Option String :=
            match findSummary db1 article_id with
            | some s => some s.summary
            | none => pyOr article.full_content article.content
          if !strTruthy text_to_embed || decide (optLen text_to_embed < 10) then
            (update_processing_status db1 article_id "failed" none
               (some "Insufficient text"),
             false, [])
          else
            match c.embed (text_to_embed.getD "") with
            | Except.error m =>
                (update_processing_status db1 article_id "failed" none (some m),
                 false, [Event.embedderInvoked article_id])
            | Except.ok v =>
                if !(v.getD []).isEmpty then
                  let db2 := addEmbedding db1
                    { article_id := article_id, vector := v.getD [],
                      model := c.embed_model_name }
                  let db3 := setArticle db2 article_id (fun a =>
                    { a with processing_status := "completed" })
                  let db4 := update_processing_status db3 article_id "completed" none none
                  (db4, true,
                   [Event.embedderInvoked article_id,
                    Event.cacheDelete ["articles:latest", "articles:all"]])
                else
                  (update_processing_status db1 article_id "failed" none
                     (some "Embedding generation failed"),
                   false, [Event.embedderInvoked article_id])

/-- Report dictionary returned by orchestrator operations: keys in insertion
order, as a Python dict would iterate them. -/
abbrev Report := List (String × Nat)

/-- Value stored under a key of a report dictionary, if the key is present. -/
def reportGet (r : Report) (k : String) : Option Nat :=
  (r.find? (fun p => p.1 == k)).map (fun p => p.2)

/-- process_article (pipeline.py lines 23-49): enqueue the extraction job and
report whether the returned job id is truthy.  The enqueue backend is the
oracle enq, giving the job id (or None when the queue backend fails); the
surrounding try/except plus enqueue_extraction's own catch mean no exception
escapes. -/
def process_article (enq : Nat → Option String) (article_id : Nat) :
    Bool × List Event :=
  (strTruthy (enq article_id), [Event.enqueueExtraction article_id])

/-- process_articles_batch (pipeline.py lines 51-70): submit each id, counting
enqueued and failed. -/
def process_articles_batch (enq : Nat → Option String) :
    List Nat → (Nat × Nat) × List Event
  | [] => ((0, 0), [])
  | article_id :: rest =>
      let first := process_article enq article_id
      let restRes := process_articles_batch enq rest
      ((if first.1 then restRes.1.1 + 1 else restRes.1.1,
        if first.1 then restRes.1.2 else restRes.1.2 + 1),
       first.2 ++ restRes.2)

/-- process_new_articles (pipeline.py lines 72-106): select the articles
scraped within the window whose articles.processing_status column is pending
or failed, submit them as a batch, and report the counts. -/
def process_new_articles (enq : Nat → Option String) (db : Db)
    (now : Int) (hours_back : Int) : Report × List Event :=
  let cutoff := now - hours_back * 3600
  let selected := db.articles.filter (fun a =>
    decide (cutoff ≤ a.scraped_at) &&
    (a.processing_status == "pending" || a.processing_status == "failed"))
  let article_ids := selected.map (fun a => a.id)
  if article_ids.isEmpty then
    ([("enqueued", 0), ("failed", 0), ("found", 0)], [])
  else
    let res := process_articles_batch enq article_ids
    ([("enqueued", res.1.1), ("failed", res.1.2), ("found", article_ids.length)],
     res.2)

/-- retry_failed_articles (pipeline.py lines 142-175): select the
ProcessingQueue rows with status failed and retry_count below max_retries and
re-submit them (re-entering at extraction). -/
def retry_failed_articles (enq : Nat → Option String) (db : Db)
    (max_retries : Nat) : Report × List Event :=
  let failed_entries := db.processing_queue.filter (fun q =>
    q.status == "failed" && decide (q.retry_count < max_retries))
  let article_ids := failed_entries.map (fun q => q.article_id)
  if article_ids.isEmpty then
    ([("retried", 0), ("found", 0)], [])
  else
    let res := process_articles_batch enq article_ids
    ([("enqueued", res.1.1), ("failed", res.1.2), ("found", article_ids.length)],
     res.2)

/-- Failed-job registries of the four RQ queues managed by MessageQueue
(client.py lines 40-43), each a list of failed job ids. -/
structure QueueRegistries where
  extraction_failed : List String
  summarization_failed : List String
  embedding_failed : List String
  email_failed : List String
deriving Repr, DecidableEq

/-- clear_failed_jobs (client.py lines 181-194): with a truthy queue name,
drain that queue's failed registry if the name is one of the four (else do
nothing); with None — or the falsy empty string — drain all four. -/
def clear_failed_jobs (qs : QueueRegistries) (queue_name : Option String) :
    QueueRegistries :=
  if strTruthy queue_name then
    match queue_name.getD "" with
    | "extraction" => { qs with extraction_failed := [] }
    | "summarization" => { qs with summarization_failed := [] }
    | "embedding" => { qs with embedding_failed := [] }
    | "email" => { qs with email_failed := [] }
    | _ => qs
  else
    { extraction_failed := [], summarization_failed := [],
      embedding_failed := [], email_failed := [] }

/-! Lemmas about the status store. -/

theorem updateFirst_find? {p : α → Bool} {f : α → α} {l : List α} {x : α}
    (hf : ∀ a, p a = true → p (f a) = true) (h : l.find? p = some x) :
    (updateFirst p f l).find? p = some (f x) := by
  induction l with
  | nil => simp [List.find?] at h
  | cons y ys ih =>
      by_cases hy : p y = true
      · rw [List.find?_cons_of_pos _ hy] at h
        cases h
        simp [updateFirst, hy, List.find?_cons_of_pos _ (hf _ hy)]
      · rw [List.find?_cons_of_neg _ (by simpa using hy)] at h
        simp [updateFirst, hy, List.find?_cons_of_neg,
          List.find?_cons_of_neg _ (by simpa using hy), ih h]

theorem find?_append_singleton {p : α → Bool} {l : List α} {x : α}
    (h : l.find? p = none) :
    (l ++ [x]).find? p = if p x then some x else none := by
  induction l with
  | nil => cases hp : p x <;> simp [List.find?, hp]
  | cons y ys ih =>
      by_cases hy : p y = true
      · rw [List.find?_cons_of_pos _ hy] at h; cases h
      · rw [List.find?_cons_of_neg _ (by simpa using hy)] at h
        simpa [List.find?_cons_of_neg _ (by simpa using hy)] using ih h

theorem applyStatusUpdate_article_id (s : String) (st e : Option String)
    (q : QueueEntry) : (applyStatusUpdate s st e q).article_id = q.article_id := by
  unfold applyStatusUpdate
  split <;> split <;> rfl

theorem applyStatusUpdate_status (s : String) (st e : Option String)
    (q : QueueEntry) : (applyStatusUpdate s st e q).status = s := by
  unfold applyStatusUpdate
  split <;> split <;> rfl

theorem applyStatusUpdate_stage (s : String) (st e : Option String)
    (q : QueueEntry) : (applyStatusUpdate s st e q).current_stage =
      if strTruthy st then st else q.current_stage := by
  unfold applyStatusUpdate
  split <;> split <;> simp_all

theorem applyStatusUpdate_error (s : String) (st e : Option String)
    (q : QueueEntry) : (applyStatusUpdate s st e q).error_message =
      if strTruthy e then e else q.error_message := by
  unfold applyStatusUpdate
  split <;> split <;> simp_all

theorem applyStatusUpdate_retry (s : String) (st e : Option String)
    (q : QueueEntry) : (applyStatusUpdate s st e q).retry_count =
      if strTruthy e then q.retry_count + 1 else q.retry_count := by
  unfold applyStatusUpdate
  split <;> split <;> simp_all

/-- The ProcessingRecord resulting from one recordStatus call, as a function of
the previous record (if any). -/
def nextEntry (article_id : Nat) (old : Option QueueEntry) (status : String)
    (stage error : Option String) : QueueEntry :=
  match old with
  | none => newQueueEntry article_id status stage
  | some q => applyStatusUpdate status stage error q

theorem findQueueEntry_update (db : Db) (i : Nat) (s : String)
    (st e : Option String) :
    findQueueEntry (update_processing_status db i s st e) i =
      some (nextEntry i (findQueueEntry db i) s st e) := by
  unfold findQueueEntry update_processing_status nextEntry
  cases h : db.processing_queue.find? (fun q => q.article_id == i) with
  | none =>
      simp only [h]
      rw [find?_append_singleton h]
      simp [newQueueEntry]
  | some q =>
      simp only [h]
      exact updateFirst_find?
        (fun a ha => by simpa [applyStatusUpdate_article_id] using ha) h

theorem update_articles (db : Db) (i : Nat) (s : String) (st e : Option String) :
    (update_processing_status db i s st e).articles = db.articles := by
  unfold update_processing_status
  cases db.processing_queue.find? (fun q => q.article_id == i) <;> rfl

theorem update_summaries (db : Db) (i : Nat) (s : String) (st e : Option String) :
    (update_processing_status db i s st e).summaries = db.summaries := by
  unfold update_processing_status
  cases db.processing_queue.find? (fun q => q.article_id == i) <;> rfl

theorem update_embeddings (db : Db) (i : Nat) (s : String) (st e : Option String) :
    (update_processing_status db i s st e).embeddings = db.embeddings := by
  unfold update_processing_status
  cases db.processing_queue.find? (fun q => q.article_id == i) <;> rfl

theorem findArticle_update (db : Db) (i j : Nat) (s : String) (st e : Option String) :
    findArticle (update_processing_status db i s st e) j = findArticle db j := by
  simp [findArticle, update_articles]

theorem findSummary_update (db : Db) (i j : Nat) (s : String) (st e : Option String) :
    findSummary (update_processing_status db i s st e) j = findSummary db j := by
  simp [findSummary, update_summaries]

theorem findEmbedding_update (db : Db) (i j : Nat) (s : String) (st e : Option String) :
    findEmbedding (update_processing_status db i s st e) j = findEmbedding db j := by
  simp [findEmbedding, update_embeddings]

theorem findQueueEntry_setArticle (db : Db) (i j : Nat) (f : Article → Article) :
    findQueueEntry (setArticle db i f) j = findQueueEntry db j := rfl

theorem findQueueEntry_addSummary (db : Db) (s : SummaryRow) (j : Nat) :
    findQueueEntry (addSummary db s) j = findQueueEntry db j := rfl

theorem findQueueEntry_addEmbedding (db : Db) (e : EmbeddingRow) (j : Nat) :
    findQueueEntry (addEmbedding db e) j = findQueueEntry db j := rfl

theorem findEmbedding_setArticle (db : Db) (i j : Nat) (f : Article → Article) :
    findEmbedding (setArticle db i f) j = findEmbedding db j := rfl

theorem findSummary_setArticle (db : Db) (i j : Nat) (f : Article → Article) :
    findSummary (setArticle db i f) j = findSummary db j := rfl

theorem statusOf_update (db : Db) (i : Nat) (s : String) (st e : Option String) :
    statusOf (update_processing_status db i s st e) i = some s := by
  simp only [statusOf, findQueueEntry_update, Option.map_some]
  cases h : findQueueEntry db i <;>
    simp [nextEntry, newQueueEntry, applyStatusUpdate_status]

theorem errorOf_update_existing (db : Db) (i : Nat) (s : String)
    (st e : Option String) (q : QueueEntry) (hq : findQueueEntry db i = some q) :
    errorOf (update_processing_status db i s st e) i =
      if strTruthy e then e else q.error_message := by
  simp [errorOf, findQueueEntry_update, hq, nextEntry, applyStatusUpdate_error,
    Option.bind]

theorem retryOf_update_existing (db : Db) (i : Nat) (s : String)
    (st e : Option String) (q : QueueEntry) (hq : findQueueEntry db i = some q) :
    retryOf (update_processing_status db i s st e) i =
      some (if strTruthy e then q.retry_count + 1 else q.retry_count) := by
  simp [retryOf, findQueueEntry_update, hq, nextEntry, applyStatusUpdate_retry]

/-! Claim theorems. -/

/-- C9: when the status writer is called for an item with no ProcessingRecord,
the created record stores the given status and stage but ignores the error
argument: error_message stays null and retry_count stays 0; error_message and
retry_count change only on calls that update an existing record (where a
truthy error sets the message and bumps the count, and a falsy error leaves
both untouched). -/
theorem claim_C9 (db : Db) (i : Nat) (s : String) (st e : Option String) :
    (findQueueEntry db i = none →
      findQueueEntry (update_processing_status db i s st e) i =
        some { article_id := i, status := s, current_stage := st,
               error_message := none, retry_count := 0 }) ∧
    (∀ q, findQueueEntry db i = some q →
      errorOf (update_processing_status db i s st e) i =
        (if strTruthy e then e else q.error_message) ∧
      retryOf (update_processing_status db i s st e) i =
        some (if strTruthy e then q.retry_count + 1 else q.retry_count)) := by
  constructor
  · intro h
    simp [findQueueEntry_update, h, nextEntry, newQueueEntry]
  · intro q hq
    exact ⟨errorOf_update_existing db i s st e q hq,
           retryOf_update_existing db i s st e q hq⟩

/-- Witness for C9: a concrete creating call carrying an error message yields
a record with null error_message and retry_count 0, and a concrete updating
call bumps the count. -/
theorem claim_C9_witness :
    findQueueEntry { articles := [], processing_queue := [], summaries := [],
                     embeddings := [] } 4 = none ∧
    findQueueEntry (update_processing_status
        { articles := [], processing_queue := [], summaries := [],
          embeddings := [] } 4 "failed" none (some "boom")) 4 =
      some { article_id := 4, status := "failed", current_stage := none,
             error_message := none, retry_count := 0 } :=
  ⟨by decide,
   (claim_C9 { articles := [], processing_queue := [], summaries := [],
               embeddings := [] } 4 "failed" none (some "boom")).1 (by decide)⟩

/-- C10 counterexample: the empty string is a queue name that is none of
extraction, summarization, embedding or email, yet calling clear_failed_jobs
with it drains all four failed-job registries (Python truthiness treats an
empty-string name like no name at all). -/
theorem claim_C10_counterexample :
    ("" ∉ (["extraction", "summarization", "embedding", "email"] : List String)) ∧
    ({ extraction_failed := ["a"], summarization_failed := ["b"],
       embedding_failed := ["c"], email_failed := ["d"] } : QueueRegistries
      ).extraction_failed ≠ [] ∧
    clear_failed_jobs
      { extraction_failed := ["a"], summarization_failed := ["b"],
        embedding_failed := ["c"], email_failed := ["d"] } (some "") =
      { extraction_failed := [], summarization_failed := [],
        embedding_failed := [], email_failed := [] } := by
  exact ⟨by decide, by decide, by decide⟩

/-- C10 amended: clear_failed_jobs with no queue name drains the failed-job
registries of all four queues, including the out-of-scope email queue; with a
non-empty name that is not one of extraction, summarization, embedding or
email it drains nothing and raises no error; an empty-string name is falsy and
behaves like no name, draining all four. -/
theorem claim_C10_amended (qs : QueueRegistries) (n : String) :
    clear_failed_jobs qs none =
      { extraction_failed := [], summarization_failed := [],
        embedding_failed := [], email_failed := [] } ∧
    clear_failed_jobs qs (some "") =
      { extraction_failed := [], summarization_failed := [],
        embedding_failed := [], email_failed := [] } ∧
    (n ≠ "" → n ∉ (["extraction", "summarization", "embedding", "email"] : List String) →
      clear_failed_jobs qs (some n) = qs) := by
  refine ⟨rfl, rfl, ?_⟩
  intro hne hmem
  unfold clear_failed_jobs
  rw [if_pos (by simp [strTruthy, Bool.eq_false_iff, String.isEmpty_iff]; exact hne)]
  simp only [Option.getD_some]
  split <;> simp_all

/-- Witness for C10 amended: a concrete state and the concrete name other. -/
theorem claim_C10_amended_witness :
    clear_failed_jobs
      { extraction_failed := ["x"], summarization_failed := [],
        embedding_failed := [], email_failed := ["y"] } (some "other") =
      { extraction_failed := ["x"], summarization_failed := [],
        embedding_failed := [], email_failed := ["y"] } :=
  (claim_C10_amended
      { extraction_failed := ["x"], summarization_failed := [],
        embedding_failed := [], email_failed := ["y"] } "other").2.2
    (by decide) (by decide)

theorem process_articles_batch_spec (enq : Nat → Option String) (ids : List Nat) :
    process_articles_batch enq ids =
      (((ids.filter (fun i => strTruthy (enq i))).length,
        (ids.filter (fun i => !strTruthy (enq i))).length),
       ids.map Event.enqueueExtraction) := by
  induction ids with
  | nil => rfl
  | cons i rest ih =>
      simp only [process_articles_batch, process_article, ih, List.filter,
        List.map]
      cases h : strTruthy (enq i) <;> simp [h]

/-- A reusable empty database. -/
def emptyDb : Db :=
  { articles := [], processing_queue := [], summaries := [], embeddings := [] }

/-- A baseline article row used by the concrete counterexamples and witnesses. -/
def baseArticle : Article :=
  { id := 0, title := "Title", url := "http://example.com/a", content := none,
    video_id := none, scraped_at := 0, processing_status := "pending",
    full_content := none, extraction_method := none }

/-- A string of n copies of the letter a, to hit length boundaries. -/
def strN (n : Nat) : String := String.mk (List.replicate n 'a')

/-- Concrete well-behaved collaborators for witnesses and counterexamples. -/
def okCollaborators : Collaborators :=
  { extract_video_transcript := fun _ =>
      Except.ok (some { content := strN 150, method := some "youtube_transcript_api" }),
    extract_article_content := fun _ =>
      Except.ok (some { content := strN 120, method := some "newspaper3k" }),
    summarize := fun _ _ =>
      Except.ok (some { summary := "a summary of the article text",
                        key_points := ["k1", "k2"], model := "gemini" }),
    embed := fun _ => Except.ok (some [1, 2, 3]),
    embed_model_name := "all-MiniLM-L6-v2" }

/-- Collaborators whose article extractor returns null (primary and fallback
both exhausted inside ContentExtractor). -/
def noneExtractor : Collaborators :=
  { okCollaborators with extract_article_content := fun _ => Except.ok none }

/-- An article scraped at time 1000 that the summarization stage has already
touched (processing_status column summarizing) while its ProcessingRecord is
failed. -/
def articleC3 : Article :=
  { baseArticle with id := 5, scraped_at := 1000,
                     processing_status := "summarizing" }

/-- Database holding articleC3 together with its failed ProcessingRecord. -/
def dbC3 : Db :=
  { articles := [articleC3],
    processing_queue := [{ article_id := 5, status := "failed",
                           current_stage := some "embedding",
                           error_message := some "x", retry_count := 0 }],
    summaries := [], embeddings := [] }

/-- C3 counterexample: an article scraped inside the window whose
ProcessingRecord status is failed (its own processing_status column reads
summarizing, as the summarization worker leaves it before the embedding stage
fails) is not selected by process_new_articles: no job is enqueued and the
report counts found = 0, refuting the claim that selection is by
ProcessingRecord status. -/
theorem claim_C3_counterexample :
    statusOf dbC3 5 = some "failed" ∧
    (1000 : Int) - 24 * 3600 ≤ 1000 ∧
    (process_new_articles (fun _ => some "job") dbC3 1000 24).2 = [] ∧
    reportGet (process_new_articles (fun _ => some "job") dbC3 1000 24).1
      "found" = some 0 := by
  refine ⟨by decide, by decide, by decide, by decide⟩

/-- C3 amended: submitNew(windowHours) selects exactly the articles scraped
within the window whose own processing_status column is pending or failed (the
ProcessingRecord status is not consulted), submits each selected article onto
the Extraction queue in order, and returns a report with keys enqueued, failed
and found, where found equals the number of selected articles. -/
theorem claim_C3_amended (enq : Nat → Option String) (db : Db)
    (now hours_back : Int) :
    (let ids := (db.articles.filter (fun a =>
        decide (now - hours_back * 3600 ≤ a.scraped_at) &&
        (a.processing_status == "pending" || a.processing_status == "failed"))
      ).map (fun a => a.id)
     (process_new_articles enq db now hours_back).2 =
        ids.map Event.enqueueExtraction ∧
     reportGet (process_new_articles enq db now hours_back).1 "found" =
        some ids.length ∧
     reportGet (process_new_articles enq db now hours_back).1 "enqueued" =
        some (ids.filter (fun i => strTruthy (enq i))).length ∧
     reportGet (process_new_articles enq db now hours_back).1 "failed" =
        some (ids.filter (fun i => !strTruthy (enq i))).length) := by
  simp only [process_new_articles, process_articles_batch_spec]
  generalize (db.articles.filter (fun a =>
      decide (now - hours_back * 3600 ≤ a.scraped_at) &&
      (a.processing_status == "pending" || a.processing_status == "failed"))
    ).map (fun a => a.id) = ids
  cases ids with
  | nil => simp [reportGet, List.find?]
  | cons i t => simp [reportGet, List.find?]

/-- C4 counterexample: with one failed record (retry_count 0) eligible for
retry, the report returned by retryFailed has keys enqueued, failed and found
but no key retried, refuting the claim that the report contains the key
retried. -/
theorem claim_C4_counterexample :
    (let db : Db :=
      { articles := [], summaries := [], embeddings := [],
        processing_queue := [{ article_id := 8, status := "failed",
                               current_stage := some "extraction",
                               error_message := some "x", retry_count := 0 }] }
     reportGet (retry_failed_articles (fun _ => some "job") db 3).1 "retried" =
       none ∧
     reportGet (retry_failed_articles (fun _ => some "job") db 3).1 "found" =
       some 1) := by
  refine ⟨by decide, by decide⟩

/-- C4 amended: retryFailed(maxRetries) re-submits exactly those items whose
ProcessingRecord status is Failed and whose retry_count is strictly below
maxRetries, each re-entering at Extraction, and its report always contains the
key found equal to the number selected; when no item matched the report is
retried 0, found 0, and when at least one matched its keys are enqueued,
failed and found (the key retried is absent).  In particular with maxRetries 3
an item at retry_count 2 is re-submitted and one at retry_count 3 is not. -/
theorem claim_C4_amended (enq : Nat → Option String) (db : Db) (m : Nat) :
    (let ids := (db.processing_queue.filter (fun q =>
        q.status == "failed" && decide (q.retry_count < m))
      ).map (fun q => q.article_id)
     (retry_failed_articles enq db m).2 = ids.map Event.enqueueExtraction ∧
     reportGet (retry_failed_articles enq db m).1 "found" = some ids.length ∧
     (ids = [] → (retry_failed_articles enq db m).1 =
        [("retried", 0), ("found", 0)]) ∧
     (ids ≠ [] → (retry_failed_articles enq db m).1 =
        [("enqueued", (ids.filter (fun i => strTruthy (enq i))).length),
         ("failed", (ids.filter (fun i => !strTruthy (enq i))).length),
         ("found", ids.length)])) := by
  simp only [retry_failed_articles, process_articles_batch_spec]
  generalize (db.processing_queue.filter (fun q =>
      q.status == "failed" && decide (q.retry_count < m))
    ).map (fun q => q.article_id) = ids
  cases ids with
  | nil => simp [reportGet, List.find?]
  | cons i t => simp [reportGet, List.find?]

/-- Witness for C4 amended: with maxRetries 3, a failed record at retry_count
2 is re-submitted while one at retry_count 3 is not, and the concrete
non-empty report carries enqueued, failed and found. -/
theorem claim_C4_amended_witness :
    (retry_failed_articles (fun _ => some "job")
      { articles := [], summaries := [], embeddings := [],
        processing_queue :=
          [{ article_id := 21, status := "failed",
             current_stage := some "extraction",
             error_message := some "x", retry_count := 2 },
           { article_id := 22, status := "failed",
             current_stage := some "extraction",
             error_message := some "y", retry_count := 3 }] } 3).2 =
      [Event.enqueueExtraction 21] ∧
    (retry_failed_articles (fun _ => some "job")
      { articles := [], summaries := [], embeddings := [],
        processing_queue :=
          [{ article_id := 21, status := "failed",
             current_stage := some "extraction",
             error_message := some "x", retry_count := 2 },
           { article_id := 22, status := "failed",
             current_stage := some "extraction",
             error_message := some "y", retry_count := 3 }] } 3).1 =
      [("enqueued", 1), ("failed", 0), ("found", 1)] := by
  refine ⟨(claim_C4_amended (fun _ => some "job") _ 3).1,
          (claim_C4_amended (fun _ => some "job") _ 3).2.2.2 (by decide)⟩

theorem stageOf_update_truthy (db : Db) (i : Nat) (s : String)
    (st e : Option String) (hst : strTruthy st = true) :
    stageOf (update_processing_status db i s st e) i = st := by
  simp only [stageOf, findQueueEntry_update, Option.some_bind]
  cases h : findQueueEntry db i <;>
    simp [nextEntry, newQueueEntry, applyStatusUpdate_stage, hst]

theorem strTruthy_of_length {s : String} (h : 0 < s.length) :
    strTruthy (some s) = true := by
  simp only [strTruthy]
  cases he : s.isEmpty
  · rfl
  · exact absurd ((String.isEmpty_iff s).1 he) (by rintro rfl; simp at h)

/-- The idempotent short-circuit path of extract_content: an article whose
full_content is longer than 100 characters skips the extractor, is marked
pending at stage summarization, and chains exactly one summarization enqueue. -/
theorem extract_content_short_circuit (c : Collaborators) (db : Db) (i : Nat)
    (a : Article) (ha : findArticle db i = some a)
    (hcond : (strTruthy a.full_content &&
      decide (optLen a.full_content > 100)) = true) :
    extract_content c db i =
      (update_processing_status
        (update_processing_status db i "extracting" (some "extraction") none)
        i "pending" (some "summarization") none,
       true, [Event.enqueueSummarization i]) := by
  have ha1 : findArticle
      (update_processing_status db i "extracting" (some "extraction") none) i =
      some a := by rw [findArticle_update]; exact ha
  simp only [extract_content, ha1, hcond, if_true]

/-- The failure path of extract_content for a non-video article: extractor
consulted once, returns null, the record is failed with the capitalized
message. -/
theorem extract_content_fail_path (c : Collaborators) (db : Db) (i : Nat)
    (a : Article) (ha : findArticle db i = some a)
    (hsc : (strTruthy a.full_content &&
      decide (optLen a.full_content > 100)) = false)
    (hvid : strTruthy a.video_id = false)
    (hext : c.extract_article_content a.url = Except.ok none) :
    extract_content c db i =
      (update_processing_status
        (update_processing_status db i "extracting" (some "extraction") none)
        i "failed" none (some "Content extraction failed"),
       false, [Event.extractorInvoked i]) := by
  have ha1 : findArticle
      (update_processing_status db i "extracting" (some "extraction") none) i =
      some a := by rw [findArticle_update]; exact ha
  simp only [extract_content, ha1, hsc, hvid, hext, Bool.false_eq_true,
    if_false]

/-- C5: for an item already holding extracted text of length at least 101, the
Extraction handler performs no extractor invocation, records status pending at
stage summarization, enqueues exactly one Summarization job and returns
success; a second run on the resulting state again performs zero extractor
invocations and exactly one Summarization enqueue. -/
theorem claim_C5 (c : Collaborators) (db : Db) (i : Nat) (a : Article)
    (s : String) (ha : findArticle db i = some a) (hfc : a.full_content = some s)
    (hlen : 101 ≤ s.length) :
    (extract_content c db i).2.2 = [Event.enqueueSummarization i] ∧
    (extract_content c db i).2.1 = true ∧
    statusOf (extract_content c db i).1 i = some "pending" ∧
    stageOf (extract_content c db i).1 i = some "summarization" ∧
    (extract_content c (extract_content c db i).1 i).2.2 =
      [Event.enqueueSummarization i] ∧
    (extract_content c (extract_content c db i).1 i).2.1 = true := by
  have hcond : (strTruthy a.full_content &&
      decide (optLen a.full_content > 100)) = true := by
    rw [hfc]
    simp only [strTruthy_of_length (by omega : 0 < s.length), Bool.true_and,
      decide_eq_true_eq, optLen]
    omega
  have h1 := extract_content_short_circuit c db i a ha hcond
  have ha' : findArticle (extract_content c db i).1 i = some a := by
    rw [h1, findArticle_update, findArticle_update]; exact ha
  have h2 := extract_content_short_circuit c (extract_content c db i).1 i a ha' hcond
  refine ⟨by rw [h1], by rw [h1], ?_, ?_, by rw [h2], by rw [h2]⟩
  · rw [h1, statusOf_update]
  · rw [h1, stageOf_update_truthy]
    rfl

/-- An article already holding 101 characters of extracted text. -/
def articleC5 : Article :=
  { baseArticle with id := 5, full_content := some (strN 101) }

/-- Database holding articleC5 and nothing else. -/
def dbC5 : Db :=
  { articles := [articleC5], processing_queue := [], summaries := [],
    embeddings := [] }

/-- Witness for C5: a concrete article holding 101 characters of extracted
text, run through the handler twice. -/
theorem claim_C5_witness :
    (extract_content okCollaborators dbC5 5).2.2 =
      [Event.enqueueSummarization 5] ∧
    (extract_content okCollaborators
       (extract_content okCollaborators dbC5 5).1 5).2.2 =
      [Event.enqueueSummarization 5] :=
  ⟨(claim_C5 okCollaborators dbC5 5 articleC5 (strN 101)
      (by decide) rfl (by decide)).1,
   (claim_C5 okCollaborators dbC5 5 articleC5 (strN 101)
      (by decide) rfl (by decide)).2.2.2.2.1⟩

/-- A fresh non-video article with no extracted text, scenario C item 9. -/
def articleC7 : Article := { baseArticle with id := 9 }

/-- Database holding articleC7 with no ProcessingRecord yet. -/
def dbC7 : Db :=
  { articles := [articleC7], processing_queue := [], summaries := [],
    embeddings := [] }

/-- C7 counterexample: with the extractor returning null for a fresh non-video
article, the recorded error message is the capitalized string, not the
lowercase string quoted by the claim. -/
theorem claim_C7_counterexample :
    errorOf (extract_content noneExtractor dbC7 9).1 9 =
      some "Content extraction failed" ∧
    errorOf (extract_content noneExtractor dbC7 9).1 9 ≠
      some "content extraction failed" ∧
    statusOf (extract_content noneExtractor dbC7 9).1 9 = some "failed" ∧
    retryOf (extract_content noneExtractor dbC7 9).1 9 = some 1 := by
  refine ⟨by decide, by decide, by decide, by decide⟩

/-- C7 amended: when the extraction collaborator (primary and fallback both
exhausted) returns null for an item with no prior extracted text and
retry_count 0, the Extraction handler records status failed with error message
"Content extraction failed" (capitalized, where the claim quotes it
lowercase), returns failure after exactly one extractor invocation (no
internal retry, no enqueue), and the retry_count becomes 1. -/
theorem claim_C7_amended (c : Collaborators) (db : Db) (i : Nat) (a : Article)
    (ha : findArticle db i = some a) (hfc : a.full_content = none)
    (hvid : a.video_id = none)
    (hq : findQueueEntry db i = none ∨
      ∃ q, findQueueEntry db i = some q ∧ q.retry_count = 0)
    (hext : c.extract_article_content a.url = Except.ok none) :
    (extract_content c db i).2.1 = false ∧
    statusOf (extract_content c db i).1 i = some "failed" ∧
    errorOf (extract_content c db i).1 i = some "Content extraction failed" ∧
    retryOf (extract_content c db i).1 i = some 1 ∧
    (extract_content c db i).2.2 = [Event.extractorInvoked i] := by
  have h1 := extract_content_fail_path c db i a ha
    (by rw [hfc]; rfl) (by rw [hvid]; rfl) hext
  have hq1 : findQueueEntry
      (update_processing_status db i "extracting" (some "extraction") none) i =
      some (nextEntry i (findQueueEntry db i) "extracting" (some "extraction") none) :=
    findQueueEntry_update db i _ _ _
  have hr0 : (nextEntry i (findQueueEntry db i) "extracting"
      (some "extraction") none).retry_count = 0 := by
    rcases hq with h | ⟨q, hqe, hq0⟩
    · rw [h]; rfl
    · rw [hqe]
      simp [nextEntry, applyStatusUpdate_retry, strTruthy, hq0]
  refine ⟨by rw [h1], ?_, ?_, ?_, by rw [h1]⟩
  · rw [h1, statusOf_update]
  · rw [h1, errorOf_update_existing _ _ _ _ _ _ hq1]
    rfl
  · rw [h1, retryOf_update_existing _ _ _ _ _ _ hq1]
    rw [hr0]
    rfl

/-- Witness for C7 amended: the concrete scenario of item 9. -/
theorem claim_C7_amended_witness :
    statusOf (extract_content noneExtractor dbC7 9).1 9 = some "failed" ∧
    retryOf (extract_content noneExtractor dbC7 9).1 9 = some 1 :=
  ⟨(claim_C7_amended noneExtractor dbC7 9 articleC7 (by decide) rfl rfl
      (Or.inl (by decide)) rfl).2.1,
   (claim_C7_amended noneExtractor dbC7 9 articleC7 (by decide) rfl rfl
      (Or.inl (by decide)) rfl).2.2.2.1⟩

/-- The insufficient-content path of generate_summary: with no existing
summary and chosen content failing the 50-character check, the record is
failed with the capitalized message and the summarizer is never consulted. -/
theorem generate_summary_insufficient (c : Collaborators) (db : Db) (i : Nat)
    (a : Article) (ha : findArticle db i = some a)
    (hns : findSummary db i = none)
    (hcond : (!strTruthy (pyOr a.full_content a.content) ||
      decide (optLen (pyOr a.full_content a.content) < 50)) = true) :
    generate_summary c db i =
      (update_processing_status
        (update_processing_status db i "summarizing" (some "summarization") none)
        i "failed" none (some "Insufficient content"),
       false, []) := by
  have ha1 : findArticle
      (update_processing_status db i "summarizing" (some "summarization") none) i =
      some a := by rw [findArticle_update]; exact ha
  have hns1 : findSummary
      (update_processing_status db i "summarizing" (some "summarization") none) i =
      none := by rw [findSummary_update]; exact hns
  simp only [generate_summary, ha1, hns1, hcond, if_true]

/-- When the 50-character check passes and no summary exists, generate_summary
reaches the summarizer call: on every collaborator behaviour the invocation
event is emitted. -/
theorem generate_summary_invokes (c : Collaborators) (db : Db) (i : Nat)
    (a : Article) (ha : findArticle db i = some a)
    (hns : findSummary db i = none)
    (hcond : (!strTruthy (pyOr a.full_content a.content) ||
      decide (optLen (pyOr a.full_content a.content) < 50)) = false) :
    Event.summarizerInvoked i ∈ (generate_summary c db i).2.2 := by
  have ha1 : findArticle
      (update_processing_status db i "summarizing" (some "summarization") none) i =
      some a := by rw [findArticle_update]; exact ha
  have hns1 : findSummary
      (update_processing_status db i "summarizing" (some "summarization") none) i =
      none := by rw [findSummary_update]; exact hns
  simp only [generate_summary, ha1, hns1, hcond, Bool.false_eq_true, if_false]
  cases c.summarize ((pyOr a.full_content a.content).getD "") a.title with
  | error m => simp
  | ok r => cases r <;> simp

/-- An article with exactly 49 characters of extracted text and no summary. -/
def articleC6a : Article :=
  { baseArticle with id := 11, full_content := some (strN 49) }

/-- Database holding articleC6a, no summary rows. -/
def dbC6a : Db :=
  { articles := [articleC6a], processing_queue := [], summaries := [],
    embeddings := [] }

/-- An article with 49 characters of extracted text that nevertheless already
has a summary row. -/
def articleC6b : Article :=
  { baseArticle with id := 12, full_content := some (strN 49) }

/-- Database holding articleC6b together with its pre-existing summary. -/
def dbC6b : Db :=
  { articles := [articleC6b],
    processing_queue := [], embeddings := [],
    summaries := [{ article_id := 12, model := "gemini",
                    summary := "old summary", key_points := [] }] }

/-- C6 counterexample: (a) on a 49-character item without a summary the
recorded reason is the capitalized "Insufficient content", not the lowercase
string the claim quotes; (b) on a 49-character item that already has a
summary the handler short-circuits to success and records pending, so the
claimed under-50 failure behaviour does not hold unconditionally. -/
theorem claim_C6_counterexample :
    (errorOf (generate_summary okCollaborators dbC6a 11).1 11 =
       some "Insufficient content" ∧
     errorOf (generate_summary okCollaborators dbC6a 11).1 11 ≠
       some "insufficient content") ∧
    ((generate_summary okCollaborators dbC6b 12).2.1 = true ∧
     statusOf (generate_summary okCollaborators dbC6b 12).1 12 =
       some "pending") := by
  refine ⟨⟨by decide, by decide⟩, by decide, by decide⟩

/-- C6 amended: for an item with no existing Summary row, the Summarization
handler takes as content the item's extracted text when non-empty and
otherwise its raw description; when that content has length strictly below 50
(including absent or empty content) it records status failed with reason
"Insufficient content" (capitalized, where the claim quotes it lowercase) and
returns failure without invoking the summarizer, and at length exactly 50 it
proceeds to invoke the summarization collaborator. -/
theorem claim_C6_amended (c : Collaborators) (db : Db) (i : Nat) (a : Article)
    (ha : findArticle db i = some a) (hns : findSummary db i = none) :
    (optLen (pyOr a.full_content a.content) < 50 →
      (generate_summary c db i).2.1 = false ∧
      statusOf (generate_summary c db i).1 i = some "failed" ∧
      errorOf (generate_summary c db i).1 i = some "Insufficient content" ∧
      (generate_summary c db i).2.2 = []) ∧
    (optLen (pyOr a.full_content a.content) = 50 →
      Event.summarizerInvoked i ∈ (generate_summary c db i).2.2) := by
  constructor
  · intro hlt
    have hcond : (!strTruthy (pyOr a.full_content a.content) ||
        decide (optLen (pyOr a.full_content a.content) < 50)) = true := by
      simp [hlt]
    have h1 := generate_summary_insufficient c db i a ha hns hcond
    have hq1 : findQueueEntry
        (update_processing_status db i "summarizing" (some "summarization") none) i =
        some (nextEntry i (findQueueEntry db i) "summarizing"
          (some "summarization") none) :=
      findQueueEntry_update db i _ _ _
    refine ⟨by rw [h1], by rw [h1, statusOf_update], ?_, by rw [h1]⟩
    rw [h1, errorOf_update_existing _ _ _ _ _ _ hq1]
    rfl
  · intro h50
    have htr : strTruthy (pyOr a.full_content a.content) = true := by
      cases hct : pyOr a.full_content a.content with
      | none => rw [hct] at h50; simp [optLen] at h50
      | some t =>
          rw [hct] at h50
          exact strTruthy_of_length (by simp [optLen] at h50; omega)
    have hcond : (!strTruthy (pyOr a.full_content a.content) ||
        decide (optLen (pyOr a.full_content a.content) < 50)) = false := by
      simp [htr, h50]
    exact generate_summary_invokes c db i a ha hns hcond

/-- An article with exactly 50 characters of extracted text and no summary. -/
def articleC6fifty : Article :=
  { baseArticle with id := 50, full_content := some (strN 50) }

/-- Database holding articleC6fifty, no summary rows. -/
def dbC6fifty : Db :=
  { articles := [articleC6fifty], processing_queue := [], summaries := [],
    embeddings := [] }

/-- Witness for C6 amended: the 49-character item fails with the capitalized
reason, and a 50-character item reaches the summarizer. -/
theorem claim_C6_amended_witness :
    (errorOf (generate_summary okCollaborators dbC6a 11).1 11 =
       some "Insufficient content" ∧
     Event.summarizerInvoked 50 ∈
       (generate_summary okCollaborators dbC6fifty 50).2.2) :=
  ⟨((claim_C6_amended okCollaborators dbC6a 11 articleC6a (by decide)
      (by decide)).1 (by decide)).2.2.1,
   (claim_C6_amended okCollaborators dbC6fifty 50 articleC6fifty (by decide)
      (by decide)).2 (by decide)⟩

/-- Key sets passed to the cache invalidation sink, in call order. -/
def cacheDeletes (evs : List Event) : List (List String) :=
  evs.filterMap (fun e => match e with
    | Event.cacheDelete ks => some ks
    | _ => none)

theorem findEmbedding_addEmbedding_self (db : Db) (row : EmbeddingRow)
    (h : findEmbedding db row.article_id = none) :
    findEmbedding (addEmbedding db row) row.article_id = some row := by
  unfold findEmbedding at h ⊢
  unfold addEmbedding
  rw [find?_append_singleton h]
  simp

/-- Inversion of the Embedding handler at a completed final status: either
the idempotent short-circuit ran (an embedding already existed, no events at
all, in particular no cache invalidation) or the success path ran (no prior
embedding, embedder invoked once, cache invalidated once with the two
articles keys, and an embedding row present afterwards).  In both cases an
embedding exists in the final state. -/
theorem generate_embedding_completed_inv (c : Collaborators) (db : Db) (i : Nat) :
    statusOf (generate_embedding c db i).1 i = some "completed" →
      ((findEmbedding db i).isSome = true ∧
       (generate_embedding c db i).2.2 = [] ∧
       (findEmbedding (generate_embedding c db i).1 i).isSome = true) ∨
      (findEmbedding db i = none ∧
       (generate_embedding c db i).2.2 =
         [Event.embedderInvoked i,
          Event.cacheDelete ["articles:latest", "articles:all"]] ∧
       (findEmbedding (generate_embedding c db i).1 i).isSome = true) := by
  cases hA : findArticle
      (update_processing_status db i "embedding" (some "embedding") none) i with
  | none =>
      simp only [generate_embedding, hA]
      intro h
      rw [statusOf_update] at h
      exact absurd h (by decide)
  | some a =>
      cases hE : findEmbedding
          (update_processing_status db i "embedding" (some "embedding") none) i with
      | some emb =>
          simp only [generate_embedding, hA, hE]
          intro _
          left
          have hEdb : findEmbedding db i = some emb := by
            have h' := hE
            rwa [findEmbedding_update] at h'
          refine ⟨by rw [hEdb]; rfl, trivial, ?_⟩
          rw [findEmbedding_update, hE]
          rfl
      | none =>
          cases hS : findSummary
              (update_processing_status db i "embedding" (some "embedding") none) i with
          | some srow =>
              simp only [generate_embedding, hA, hE, hS]
              cases hC : (!strTruthy (some srow.summary) ||
                  decide (optLen (some srow.summary) < 10)) with
              | true =>
                  simp only [hC, if_true]
                  intro h
                  rw [statusOf_update] at h
                  exact absurd h (by decide)
              | false =>
                  simp only [hC, Bool.false_eq_true, if_false]
                  cases hB : c.embed ((some srow.summary).getD "") with
                  | error m =>
                      simp only [hB]
                      intro h
                      rw [statusOf_update] at h
                      exact absurd h (by decide)
                  | ok v =>
                      simp only [hB]
                      cases hV : !(v.getD []).isEmpty with
                      | true =>
                          simp only [hV, if_true]
                          intro _
                          right
                          have hEdb : findEmbedding db i = none := by
                            have h' := hE
                            rwa [findEmbedding_update] at h'
                          refine ⟨hEdb, trivial, ?_⟩
                          rw [findEmbedding_update, findEmbedding_setArticle,
                            findEmbedding_addEmbedding_self _ _ hE]
                          rfl
                      | false =>
                          simp only [hV, Bool.false_eq_true, if_false]
                          intro h
                          rw [statusOf_update] at h
                          exact absurd h (by decide)
          | none =>
              simp only [generate_embedding, hA, hE, hS]
              cases hC : (!strTruthy (pyOr a.full_content a.content) ||
                  decide (optLen (pyOr a.full_content a.content) < 10)) with
              | true =>
                  simp only [hC, if_true]
                  intro h
                  rw [statusOf_update] at h
                  exact absurd h (by decide)
              | false =>
                  simp only [hC, Bool.false_eq_true, if_false]
                  cases hB : c.embed ((pyOr a.full_content a.content).getD "") with
                  | error m =>
                      simp only [hB]
                      intro h
                      rw [statusOf_update] at h
                      exact absurd h (by decide)
                  | ok v =>
                      simp only [hB]
                      cases hV : !(v.getD []).isEmpty with
                      | true =>
                          simp only [hV, if_true]
                          intro _
                          right
                          have hEdb : findEmbedding db i = none := by
                            have h' := hE
                            rwa [findEmbedding_update] at h'
                          refine ⟨hEdb, trivial, ?_⟩
                          rw [findEmbedding_update, findEmbedding_setArticle,
                            findEmbedding_addEmbedding_self _ _ hE]
                          rfl
                      | false =>
                          simp only [hV, Bool.false_eq_true, if_false]
                          intro h
                          rw [statusOf_update] at h
                          exact absurd h (by decide)

/-- An article with a 16-character raw description, no extracted text, no
summary and no embedding. -/
def articleC1 : Article :=
  { baseArticle with id := 1, content := some "abcdefghijklmnop" }

/-- Database holding articleC1 alone: the embedding handler can complete it
without any summary ever existing. -/
def dbC1 : Db :=
  { articles := [articleC1], processing_queue := [], summaries := [],
    embeddings := [] }

/-- A fully completed article: extracted text, summary row, embedding row and
a completed ProcessingRecord. -/
def articleC1b : Article :=
  { baseArticle with id := 2, full_content := some (strN 120) }

/-- Database where both a Summary and an Embedding exist for item 2 and its
record is completed. -/
def dbC1b : Db :=
  { articles := [articleC1b],
    processing_queue := [{ article_id := 2, status := "completed",
                           current_stage := some "embedding",
                           error_message := none, retry_count := 0 }],
    summaries := [{ article_id := 2, model := "gemini", summary := "s",
                    key_points := [] }],
    embeddings := [{ article_id := 2, vector := [1], model := "m" }] }

/-- C1 counterexample: (a) the Embedding handler records status completed for
item 1 although no Summary exists for it (the handler embeds the raw
description and never checks for a Summary), refuting the only-if direction of
the iff; (b) re-running the Extraction handler on the fully completed item 2
leaves status pending while both a Summary and an Embedding exist, refuting
the at-most-one-of-the-two clause for non-completed statuses. -/
theorem claim_C1_counterexample :
    (statusOf (generate_embedding okCollaborators dbC1 1).1 1 =
       some "completed" ∧
     findSummary (generate_embedding okCollaborators dbC1 1).1 1 = none) ∧
    (statusOf (extract_content okCollaborators dbC1b 2).1 2 = some "pending" ∧
     (findSummary (extract_content okCollaborators dbC1b 2).1 2).isSome = true ∧
     (findEmbedding (extract_content okCollaborators dbC1b 2).1 2).isSome =
       true) := by
  refine ⟨⟨by decide, by decide⟩, by decide, by decide, by decide⟩

/-- C1 amended: whenever a run of the Embedding handler ends with the
persisted status completed, an Embedding row exists for the item in the final
state; a Summary need not exist (the handler completes items without one),
and statuses other than completed can coexist with both artifacts. -/
theorem claim_C1_amended (c : Collaborators) (db : Db) (i : Nat) :
    statusOf (generate_embedding c db i).1 i = some "completed" →
    (findEmbedding (generate_embedding c db i).1 i).isSome = true := by
  intro h
  rcases generate_embedding_completed_inv c db i h with
    ⟨_, _, hs⟩ | ⟨_, _, hs⟩ <;> exact hs

/-- Witness for C1 amended: the concrete completed run on item 1 leaves an
embedding row in the final state. -/
theorem claim_C1_amended_witness :
    statusOf (generate_embedding okCollaborators dbC1 1).1 1 =
      some "completed" ∧
    (findEmbedding (generate_embedding okCollaborators dbC1 1).1 1).isSome =
      true :=
  ⟨by decide, claim_C1_amended okCollaborators dbC1 1 (by decide)⟩

/-- An article whose embedding row already exists before the handler runs. -/
def articleC2 : Article :=
  { baseArticle with id := 3, content := some "a short description here" }

/-- Database where item 3 already has an embedding, triggering the
short-circuit completion. -/
def dbC2 : Db :=
  { articles := [articleC2], processing_queue := [], summaries := [],
    embeddings := [{ article_id := 3, vector := [5], model := "m" }] }

/-- C2 counterexample: (a) the short-circuit run on item 3 records status
completed yet performs zero cache invalidations, refuting called exactly
once on every completion; (b) the success run on item 1 invalidates the keys
articles:latest and articles:all, which differ from the claimed key set
items:latest and items:all. -/
theorem claim_C2_counterexample :
    (statusOf (generate_embedding okCollaborators dbC2 3).1 3 =
       some "completed" ∧
     cacheDeletes (generate_embedding okCollaborators dbC2 3).2.2 = []) ∧
    (cacheDeletes (generate_embedding okCollaborators dbC1 1).2.2 =
       [["articles:latest", "articles:all"]] ∧
     (["articles:latest", "articles:all"] : List String) ≠
       ["items:latest", "items:all"]) := by
  refine ⟨⟨by decide, by decide⟩, by decide, by decide⟩

/-- C2 amended: on every run of the Embedding handler that ends with status
completed, either the embedding already existed and the cache invalidation
sink is not called at all (the idempotent short-circuit), or no embedding
existed and the sink is called exactly once with exactly the key set
articles:latest, articles:all (the code's names for the two list caches) and
no other keys. -/
theorem claim_C2_amended (c : Collaborators) (db : Db) (i : Nat) :
    statusOf (generate_embedding c db i).1 i = some "completed" →
    ((findEmbedding db i).isSome = true ∧
      cacheDeletes (generate_embedding c db i).2.2 = []) ∨
    (findEmbedding db i = none ∧
      cacheDeletes (generate_embedding c db i).2.2 =
        [["articles:latest", "articles:all"]]) := by
  intro h
  rcases generate_embedding_completed_inv c db i h with
    ⟨he, hev, _⟩ | ⟨he, hev, _⟩
  · exact Or.inl ⟨he, by rw [hev]; rfl⟩
  · exact Or.inr ⟨he, by rw [hev]; rfl⟩

/-- Witness for C2 amended: the concrete success run on item 1, where no
embedding existed, invalidates exactly once with the two articles keys. -/
theorem claim_C2_amended_witness :
    ((findEmbedding dbC1 1).isSome = true ∧
      cacheDeletes (generate_embedding okCollaborators dbC1 1).2.2 = []) ∨
    (findEmbedding dbC1 1 = none ∧
      cacheDeletes (generate_embedding okCollaborators dbC1 1).2.2 =
        [["articles:latest", "articles:all"]]) :=
  claim_C2_amended okCollaborators dbC1 1 (by decide)

/-- A failed-status write performed after the handler's entry write: the
record exists, so the status becomes failed and the non-empty reason is
stored. -/
theorem failed_write_after_entry (db : Db) (i : Nat) (s0 : String)
    (st0 : Option String) (m : String) (hm : ¬m = "") :
    statusOf (update_processing_status
      (update_processing_status db i s0 st0 none) i "failed" none (some m)) i =
      some "failed" ∧
    ∃ m', errorOf (update_processing_status
      (update_processing_status db i s0 st0 none) i "failed" none (some m)) i =
      some m' ∧ ¬m' = "" := by
  have hq1 := findQueueEntry_update db i s0 st0 none
  refine ⟨statusOf_update _ _ _ _ _, m, ?_, hm⟩
  rw [errorOf_update_existing _ _ _ _ _ _ hq1]
  rw [if_pos (by simp [strTruthy, Bool.eq_false_iff, String.isEmpty_iff]; exact hm)]

/-- Every failing run of the Extraction handler ends with a failed status,
unconditionally; a non-empty reason is moreover stored whenever the
collaborator exception messages (if any were raised) stringify non-empty. -/
theorem extract_content_failure_spec (c : Collaborators) (db : Db) (i : Nat) :
    (extract_content c db i).2.1 = false →
      statusOf (extract_content c db i).1 i = some "failed" ∧
      (((∀ s m, c.extract_video_transcript s = Except.error m → ¬m = "") ∧
        (∀ s m, c.extract_article_content s = Except.error m → ¬m = "")) →
       ∃ m, errorOf (extract_content c db i).1 i = some m ∧ ¬m = "") := by
  cases hA : findArticle
      (update_processing_status db i "extracting" (some "extraction") none) i with
  | none =>
      simp only [extract_content, hA]
      intro _
      exact ⟨statusOf_update _ _ _ _ _,
        fun _ => (failed_write_after_entry db i _ _ _ (by decide)).2⟩
  | some a =>
      cases hSC : (strTruthy a.full_content &&
          decide (optLen a.full_content > 100)) with
      | true =>
          simp only [extract_content, hA, hSC, if_true]
          intro h
          exact absurd h (by decide)
      | false =>
          simp only [extract_content, hA, hSC, Bool.false_eq_true, if_false]
          cases hvid : strTruthy a.video_id with
          | true =>
              simp only [hvid, if_true]
              cases hcall : c.extract_video_transcript (a.video_id.getD "") with
              | error m =>
                  simp only [hcall]
                  intro _
                  exact ⟨statusOf_update _ _ _ _ _,
                    fun hc =>
                      (failed_write_after_entry db i _ _ _ (hc.1 _ _ hcall)).2⟩
              | ok r =>
                  cases r with
                  | none =>
                      simp only [hcall]
                      intro _
                      exact ⟨statusOf_update _ _ _ _ _,
                        fun _ => (failed_write_after_entry db i _ _ _ (by decide)).2⟩
                  | some er =>
                      simp only [hcall]
                      cases hc : !er.content.isEmpty with
                      | true =>
                          simp only [hc, if_true]
                          intro h
                          exact absurd h (by decide)
                      | false =>
                          simp only [hc, Bool.false_eq_true, if_false]
                          intro _
                          exact ⟨statusOf_update _ _ _ _ _,
                            fun _ =>
                              (failed_write_after_entry db i _ _ _ (by decide)).2⟩
          | false =>
              simp only [hvid, Bool.false_eq_true, if_false]
              cases hcall : c.extract_article_content a.url with
              | error m =>
                  simp only [hcall]
                  intro _
                  exact ⟨statusOf_update _ _ _ _ _,
                    fun hc =>
                      (failed_write_after_entry db i _ _ _ (hc.2 _ _ hcall)).2⟩
              | ok r =>
                  cases r with
                  | none =>
                      simp only [hcall]
                      intro _
                      exact ⟨statusOf_update _ _ _ _ _,
                        fun _ => (failed_write_after_entry db i _ _ _ (by decide)).2⟩
                  | some er =>
                      simp only [hcall]
                      cases hc : !er.content.isEmpty with
                      | true =>
                          simp only [hc, if_true]
                          intro h
                          exact absurd h (by decide)
                      | false =>
                          simp only [hc, Bool.false_eq_true, if_false]
                          intro _
                          exact ⟨statusOf_update _ _ _ _ _,
                            fun _ =>
                              (failed_write_after_entry db i _ _ _ (by decide)).2⟩

/-- Every failing run of the Summarization handler ends with a failed status,
unconditionally; a non-empty reason is moreover stored whenever the
summarizer's exception messages stringify non-empty. -/
theorem generate_summary_failure_spec (c : Collaborators) (db : Db) (i : Nat) :
    (generate_summary c db i).2.1 = false →
      statusOf (generate_summary c db i).1 i = some "failed" ∧
      ((∀ s t m, c.summarize s t = Except.error m → ¬m = "") →
       ∃ m, errorOf (generate_summary c db i).1 i = some m ∧ ¬m = "") := by
  cases hA : findArticle
      (update_processing_status db i "summarizing" (some "summarization") none) i with
  | none =>
      simp only [generate_summary, hA]
      intro _
      exact ⟨statusOf_update _ _ _ _ _,
        fun _ => (failed_write_after_entry db i _ _ _ (by decide)).2⟩
  | some a =>
      cases hS : findSummary
          (update_processing_status db i "summarizing" (some "summarization") none) i with
      | some srow =>
          simp only [generate_summary, hA, hS]
          intro h
          exact absurd h (by decide)
      | none =>
          simp only [generate_summary, hA, hS]
          cases hC : (!strTruthy (pyOr a.full_content a.content) ||
              decide (optLen (pyOr a.full_content a.content) < 50)) with
          | true =>
              simp only [hC, if_true]
              intro _
              exact ⟨statusOf_update _ _ _ _ _,
                fun _ => (failed_write_after_entry db i _ _ _ (by decide)).2⟩
          | false =>
              simp only [hC, Bool.false_eq_true, if_false]
              cases hB : c.summarize ((pyOr a.full_content a.content).getD "")
                  a.title with
              | error m =>
                  simp only [hB]
                  intro _
                  exact ⟨statusOf_update _ _ _ _ _,
                    fun hsum =>
                      (failed_write_after_entry db i _ _ _ (hsum _ _ _ hB)).2⟩
              | ok r =>
                  cases r with
                  | none =>
                      simp only [hB]
                      intro _
                      exact ⟨statusOf_update _ _ _ _ _,
                        fun _ => (failed_write_after_entry db i _ _ _ (by decide)).2⟩
                  | some sr =>
                      simp only [hB]
                      intro h
                      exact absurd h (by decide)

/-- Every failing run of the Embedding handler ends with a failed status,
unconditionally; a non-empty reason is moreover stored whenever the embedder's
exception messages stringify non-empty. -/
theorem generate_embedding_failure_spec (c : Collaborators) (db : Db) (i : Nat) :
    (generate_embedding c db i).2.1 = false →
      statusOf (generate_embedding c db i).1 i = some "failed" ∧
      ((∀ s m, c.embed s = Except.error m → ¬m = "") →
       ∃ m, errorOf (generate_embedding c db i).1 i = some m ∧ ¬m = "") := by
  cases hA : findArticle
      (update_processing_status db i "embedding" (some "embedding") none) i with
  | none =>
      simp only [generate_embedding, hA]
      intro _
      exact ⟨statusOf_update _ _ _ _ _,
                        fun _ => (failed_write_after_entry db i _ _ _ (by decide)).2⟩
  | some a =>
      cases hE : findEmbedding
          (update_processing_status db i "embedding" (some "embedding") none) i with
      | some emb =>
          simp only [generate_embedding, hA, hE]
          intro h
          exact absurd h (by decide)
      | none =>
          cases hS : findSummary
              (update_processing_status db i "embedding" (some "embedding") none) i with
          | some srow =>
              simp only [generate_embedding, hA, hE, hS]
              cases hC : (!strTruthy (some srow.summary) ||
                  decide (optLen (some srow.summary) < 10)) with
              | true =>
                  simp only [hC, if_true]
                  intro _
                  exact ⟨statusOf_update _ _ _ _ _,
                        fun _ => (failed_write_after_entry db i _ _ _ (by decide)).2⟩
              | false =>
                  simp only [hC, Bool.false_eq_true, if_false]
                  cases hB : c.embed ((some srow.summary).getD "") with
                  | error m =>
                      simp only [hB]
                      intro _
                      exact ⟨statusOf_update _ _ _ _ _,
                        fun hemb => (failed_write_after_entry db i _ _ _ (hemb _ _ hB)).2⟩
                  | ok v =>
                      simp only [hB]
                      cases hV : !(v.getD []).isEmpty with
                      | true =>
                          simp only [hV, if_true]
                          intro h
                          exact absurd h (by decide)
                      | false =>
                          simp only [hV, Bool.false_eq_true, if_false]
                          intro _
                          exact ⟨statusOf_update _ _ _ _ _,
                        fun _ => (failed_write_after_entry db i _ _ _ (by decide)).2⟩
          | none =>
              simp only [generate_embedding, hA, hE, hS]
              cases hC : (!strTruthy (pyOr a.full_content a.content) ||
                  decide (optLen (pyOr a.full_content a.content) < 10)) with
              | true =>
                  simp only [hC, if_true]
                  intro _
                  exact ⟨statusOf_update _ _ _ _ _,
                        fun _ => (failed_write_after_entry db i _ _ _ (by decide)).2⟩
              | false =>
                  simp only [hC, Bool.false_eq_true, if_false]
                  cases hB : c.embed ((pyOr a.full_content a.content).getD "") with
                  | error m =>
                      simp only [hB]
                      intro _
                      exact ⟨statusOf_update _ _ _ _ _,
                        fun hemb => (failed_write_after_entry db i _ _ _ (hemb _ _ hB)).2⟩
                  | ok v =>
                      simp only [hB]
                      cases hV : !(v.getD []).isEmpty with
                      | true =>
                          simp only [hV, if_true]
                          intro h
                          exact absurd h (by decide)
                      | false =>
                          simp only [hV, Bool.false_eq_true, if_false]
                          intro _
                          exact ⟨statusOf_update _ _ _ _ _,
                        fun _ => (failed_write_after_entry db i _ _ _ (by decide)).2⟩

/-- A fresh non-video article for the C8 scenarios, with no record yet. -/
def articleC8 : Article := { baseArticle with id := 8 }

/-- Database holding articleC8 alone. -/
def dbC8 : Db :=
  { articles := [articleC8], processing_queue := [], summaries := [],
    embeddings := [] }

/-- Collaborators that raise exceptions from every call whose str() is the
empty string (Python allows raise Exception() with no message). -/
def emptyRaiser : Collaborators :=
  { extract_video_transcript := fun _ => Except.error "",
    extract_article_content := fun _ => Except.error "",
    summarize := fun _ _ => Except.error "",
    embed := fun _ => Except.error "",
    embed_model_name := "all-MiniLM-L6-v2" }

/-- C8 counterexample: when the extraction collaborator raises an exception
whose str() is empty, the handler catches it and returns false with status
failed, but no reason is ever written: the status writer's truthiness guard
on the error argument skips the message write, so error_message stays null,
refuting the claim that on every error a human-readable reason is written. -/
theorem claim_C8_counterexample :
    (extract_content emptyRaiser dbC8 8).2.1 = false ∧
    statusOf (extract_content emptyRaiser dbC8 8).1 8 = some "failed" ∧
    errorOf (extract_content emptyRaiser dbC8 8).1 8 = none := by
  refine ⟨by decide, by decide, by decide⟩

/-- Collaborators that raise exceptions from every call, with non-empty
messages, to exercise the error boundary. -/
def raisingCollaborators : Collaborators :=
  { extract_video_transcript := fun _ => Except.error "connection reset",
    extract_article_content := fun _ => Except.error "connection reset",
    summarize := fun _ _ => Except.error "rate limited",
    embed := fun _ => Except.error "model load failure",
    embed_model_name := "all-MiniLM-L6-v2" }

/-- C8 amended: the embedded handlers are total Lean functions returning a
boolean together with the updated state and event trace, so no exception
crosses the handler boundary by construction (the catch-all except blocks are
part of the embedding, and collaborator behaviours that raise are covered by
the Except.error cases); for every input and every collaborator behaviour,
whenever a handler returns false it has written a failed status for the item
before returning.  A non-empty human-readable reason is moreover stored in
error_message for every built-in failure, and for caught exceptions exactly
when their messages stringify non-empty: an exception whose str() is empty
leaves error_message unwritten, because the status writer treats a falsy
error argument as absent. -/
theorem claim_C8_amended (c : Collaborators) (db : Db) (i : Nat) :
    ((extract_content c db i).2.1 = false →
      statusOf (extract_content c db i).1 i = some "failed" ∧
      (((∀ s m, c.extract_video_transcript s = Except.error m → ¬m = "") ∧
        (∀ s m, c.extract_article_content s = Except.error m → ¬m = "")) →
       ∃ m, errorOf (extract_content c db i).1 i = some m ∧ ¬m = "")) ∧
    ((generate_summary c db i).2.1 = false →
      statusOf (generate_summary c db i).1 i = some "failed" ∧
      ((∀ s t m, c.summarize s t = Except.error m → ¬m = "") →
       ∃ m, errorOf (generate_summary c db i).1 i = some m ∧ ¬m = "")) ∧
    ((generate_embedding c db i).2.1 = false →
      statusOf (generate_embedding c db i).1 i = some "failed" ∧
      ((∀ s m, c.embed s = Except.error m → ¬m = "") →
       ∃ m, errorOf (generate_embedding c db i).1 i = some m ∧ ¬m = "")) :=
  ⟨extract_content_failure_spec c db i,
   generate_summary_failure_spec c db i,
   generate_embedding_failure_spec c db i⟩

/-- Witness for C8 amended: concrete failing runs of all three handlers
against raising collaborators with non-empty messages end failed with a
non-empty stored reason. -/
theorem claim_C8_amended_witness :
    (statusOf (extract_content raisingCollaborators dbC8 8).1 8 =
       some "failed" ∧
     ∃ m, errorOf (extract_content raisingCollaborators dbC8 8).1 8 =
       some m ∧ ¬m = "") ∧
    (statusOf (generate_summary raisingCollaborators dbC6fifty 50).1 50 =
       some "failed" ∧
     ∃ m, errorOf (generate_summary raisingCollaborators dbC6fifty 50).1 50 =
       some m ∧ ¬m = "") ∧
    (statusOf (generate_embedding raisingCollaborators dbC1 1).1 1 =
       some "failed" ∧
     ∃ m, errorOf (generate_embedding raisingCollaborators dbC1 1).1 1 =
       some m ∧ ¬m = "") :=
  ⟨(let t := (claim_C8_amended raisingCollaborators dbC8 8).1 (by decide)
    ⟨t.1, t.2 ⟨fun _ _ h => by cases h; decide,
               fun _ _ h => by cases h; decide⟩⟩),
   (let t := (claim_C8_amended raisingCollaborators dbC6fifty 50).2.1 (by decide)
    ⟨t.1, t.2 (fun _ _ _ h => by cases h; decide)⟩),
   (let t := (claim_C8_amended raisingCollaborators dbC1 1).2.2 (by decide)
    ⟨t.1, t.2 (fun _ _ h => by cases h; decide)⟩)⟩

end Nexus
